import Mathlib

/-!
Shallow embedding of the repository-synchronization engine of
`src/mcp_server/handlers/github.py` (class `GitHubManager`), from the Python
project `mcp-neogit`.

Modelling conventions:

* A Python `bytes` value is a `List Nat` (each element a byte value `< 256`;
  no claim depends on the bound, so it is not carried as an invariant).
* A Python exception is abstracted to the only data the handler code ever
  inspects on it: whether `hasattr(e, 'status') and e.status == 409 or
  'Git Repository is empty' in str(e)` holds (`isEmptyRepo`), and whether
  `'404' in str(e) or 'Not Found' in str(e)` holds (`looksNotFound`).
* A fallible call is a value of `Res α` (`ok` = the call returned, `err e` =
  the call raised `e`).  The remote API (PyGithub) is a passive environment:
  each call site gets an environment field giving that call's outcome, so
  theorems quantify over every possible remote behaviour.
* Remote calls issued by a run are recorded in a trace (`List Call`) so that
  ordering and data-flow properties are statable.
-/

namespace MCPNeogit

/-- The only two facts the handler ever tests about a raised exception. -/
structure Exn where
  /-- `hasattr(e, 'status') and e.status == 409 or 'Git Repository is empty' in str(e)`
  (github.py line 95). -/
  isEmptyRepo : Bool
  /-- `'404' in str(e) or 'Not Found' in str(e)` (github.py line 149). -/
  looksNotFound : Bool
deriving DecidableEq, Repr

/-- Result of a fallible Python expression: either a value or a raised
exception.  (A bespoke type rather than `Except` so `DecidableEq` derives.) -/
inductive Res (α : Type) where
  | ok (val : α)
  | err (e : Exn)
deriving DecidableEq, Repr

/-! ### Content classification (`GitHubManager._is_binary`, lines 180-191)

`content.decode('utf-8')` succeeds exactly when the bytes are valid UTF-8 in
the strict sense (RFC 3629: no continuation-byte leads, no overlong forms,
no surrogates, nothing above U+10FFFF), which is what CPython enforces. -/

/-- A UTF-8 continuation byte: `0x80 ≤ b ≤ 0xBF`. -/
def isCont (b : Nat) : Bool := 0x80 ≤ b && b ≤ 0xBF

/-- Strict UTF-8 validity of a byte sequence, as CPython's
`bytes.decode('utf-8')` checks it. -/
def utf8Valid : List Nat → Bool
  | [] => true
  | b0 :: rest =>
    if b0 < 0x80 then
      -- ASCII byte
      utf8Valid rest
    else if b0 < 0xC2 then
      -- stray continuation byte (0x80-0xBF) or overlong 2-byte lead (0xC0/0xC1)
      false
    else if b0 < 0xE0 then
      -- 2-byte sequence
      match rest with
      | b1 :: rest2 => isCont b1 && utf8Valid rest2
      | [] => false
    else if b0 < 0xF0 then
      -- 3-byte sequence: 0xE0 must not be overlong, 0xED must avoid surrogates
      match rest with
      | b1 :: b2 :: rest3 =>
        (if b0 == 0xE0 then 0xA0 ≤ b1 && b1 ≤ 0xBF
         else if b0 == 0xED then 0x80 ≤ b1 && b1 ≤ 0x9F
         else isCont b1) && isCont b2 && utf8Valid rest3
      | _ => false
    else if b0 < 0xF5 then
      -- 4-byte sequence: 0xF0 must not be overlong, 0xF4 must stay ≤ U+10FFFF
      match rest with
      | b1 :: b2 :: b3 :: rest4 =>
        (if b0 == 0xF0 then 0x90 ≤ b1 && b1 ≤ 0xBF
         else if b0 == 0xF4 then 0x80 ≤ b1 && b1 ≤ 0x8F
         else isCont b1) && isCont b2 && isCont b3 && utf8Valid rest4
      | _ => false
    else
      -- 0xF5-0xFF: never a valid lead byte
      false

/-- `GitHubManager._is_binary` (github.py lines 180-191): NUL byte means
binary; otherwise try to decode as UTF-8, decode failure means binary. -/
def _is_binary (content : List Nat) : Bool :=
  if content.contains 0 then
    true
  else if utf8Valid content then
    false
  else
    true

example : _is_binary [104, 105] = false := by decide
example : _is_binary [104, 0, 105] = true := by decide
example : _is_binary [0xC3, 0xA9] = false := by decide       -- 'é'
example : _is_binary [0xC3] = true := by decide              -- truncated
example : _is_binary [0xED, 0xA0, 0x80] = true := by decide  -- surrogate
example : _is_binary [0xC0, 0xAF] = true := by decide        -- overlong

/-! ### File collection (`_upload_files`, lines 75-86)

`os.walk(project_path)` with in-place pruning of `dirs`.  A directory tree is
modelled as a list of nodes; `os.walk` is top-down, so a directory's files are
emitted before any of its subdirectories' files. -/

/-- `GitHubManager.EXCLUDE_PATTERNS` (github.py line 15). -/
def EXCLUDE_PATTERNS : List String :=
  [".git", "node_modules", "__pycache__", "venv", ".DS_Store", ".mypy_cache"]

/-- `GitHubManager.MAX_FILE_SIZE` (github.py line 16): 5 MiB. -/
def MAX_FILE_SIZE : Nat := 5 * 1024 * 1024

/-- A node of the local directory tree: a file with a byte size, or a
directory with children. -/
inductive FsNode where
  | file (name : String) (size : Nat)
  | dir (name : String) (children : List FsNode)
deriving Repr

/-- A collected entry: the directory components of the path relative to the
project root, the file's base name, and its size (so `rel_path` is
`dirs ++ [name]` joined with the path separator). -/
structure Entry where
  dirs : List String
  name : String
  size : Nat
deriving DecidableEq, Repr

/-- Python's `s.startswith('.')` (kernel-reducible form of
`String.startsWith s "."`). -/
def startswithDot (s : String) : Bool :=
  match s.data with
  | [] => false
  | c :: _ => c == '.'

/-- The per-file filter of the walk loop (lines 80-85): dot-files and
exclusion-set names are skipped, then files over `MAX_FILE_SIZE` are skipped. -/
def walkFiles (pre : List String) (children : List FsNode) : List Entry :=
  children.filterMap fun n =>
    match n with
    | .file name size =>
      if startswithDot name || EXCLUDE_PATTERNS.contains name then none
      else if size > MAX_FILE_SIZE then none
      else some ⟨pre, name, size⟩
    | .dir _ _ => none

/-- Directory pruning (line 78): `d not in EXCLUDE_PATTERNS and not
d.startswith('.')`. -/
def dirKept (name : String) : Bool :=
  !(EXCLUDE_PATTERNS.contains name) && !(startswithDot name)

mutual

/-- The recursive part of the walk, one node: a file contributes nothing here
(its parent's `walkFiles` pass already handled it); a kept directory emits its
own files and then descends (top-down `os.walk` order), a pruned directory
emits nothing. -/
def walkNode (pre : List String) : FsNode → List Entry
  | .file _ _ => []
  | .dir name ch =>
    if dirKept name then
      walkFiles (pre ++ [name]) ch ++ walkSubdirs (pre ++ [name]) ch
    else []

/-- The recursive part of the walk, over a sibling list. -/
def walkSubdirs (pre : List String) : List FsNode → List Entry
  | [] => []
  | n :: rest => walkNode pre n ++ walkSubdirs pre rest

end

/-- `files_to_upload` as gathered by lines 75-86 from a project root whose
children are `children`. -/
def collectFiles (children : List FsNode) : List Entry :=
  walkFiles [] children ++ walkSubdirs [] children

example :
    collectFiles
      [.file "a.txt" 10, .file ".env" 3, .file "big.zip" (6 * 1024 * 1024),
       .dir "node_modules" [.file "x.js" 1],
       .dir "src" [.file "m.py" 7, .file ".DS_Store" 1]] =
      [⟨[], "a.txt", 10⟩, ⟨["src"], "m.py", 7⟩] := by decide

/-! ### Shared path/string helpers -/

/-- `str(rel_path)`: a relative path's components joined with `/`. -/
def pathStr (p : List String) : String := String.intercalate "/" p

/-- Python's `s.lower()` (kernel-reducible form of `String.toLower`; file
names in this development are ASCII, where the two agree). -/
def lowerStr (s : String) : String := ⟨s.data.map Char.toLower⟩

/-- UTF-8 encoding of one scalar value (a `Char` is a unicode scalar). -/
def encodeChar (c : Char) : List Nat :=
  let n := c.toNat
  if n < 0x80 then [n]
  else if n < 0x800 then [0xC0 + n / 0x40, 0x80 + n % 0x40]
  else if n < 0x10000 then
    [0xE0 + n / 0x1000, 0x80 + n / 0x40 % 0x40, 0x80 + n % 0x40]
  else
    [0xF0 + n / 0x40000, 0x80 + n / 0x1000 % 0x40, 0x80 + n / 0x40 % 0x40,
     0x80 + n % 0x40]

/-- The UTF-8 bytes of a Python `str` (a decoded text and its bytes determine
each other, so call arguments carry the bytes). -/
def strBytes (s : String) : List Nat := s.data.flatMap encodeChar

/-! ### Remote-call model

Every remote (PyGithub) call a run can issue, with the arguments relevant to
the claims.  `create_git_blob` is issued with the base64 encoding of the
content; base64 is injective, so the trace records the raw bytes. -/

/-- `InputGitTreeElement(rel_path, '100644', 'blob', sha=blob.sha)`
(github.py line 141). -/
structure InputGitTreeElement where
  path : List String
  mode : String
  type : String
  sha : String
deriving DecidableEq, Repr

/-- One issued remote call (also recorded when the call raised). -/
inductive Call where
  | get_git_ref (refName : String)
  | get_git_commit (sha : String)
  | get_git_tree (sha : String)
  | create_file (path : List String) (message : String) (content : List Nat)
      (branch : String)
  | update_file (path : List String) (message : String) (content : List Nat)
      (prevSha : String) (branch : String)
  | get_contents (path : List String) (branch : String)
  | create_git_blob (content : List Nat)
  | create_git_ref (refName : String) (sha : String)
  | create_git_tree (elements : List InputGitTreeElement) (baseTree : String)
  | create_git_commit (message : String) (tree : String) (parents : List String)
  | ref_edit (sha : String)
deriving DecidableEq, Repr

/-- A commit object as the handler uses it: its own sha and its tree's sha
(`latest_commit.tree.sha`). -/
structure GitCommit where
  sha : String
  tree : String
deriving DecidableEq, Repr

/-! ### The per-file upload loop (`_upload_files`, lines 126-159) -/

/-- One entry of `files_to_upload` as the loop sees it: the relative path and
the outcome of `open(file_path, 'rb').read()`. -/
structure SrcFile where
  relPath : List String
  readResult : Res (List Nat)
deriving DecidableEq, Repr

/-- The remote's behaviour towards one file: outcome of `create_git_blob`
(line 140), of `get_contents` (line 145, ok = `contents.sha`), of
`update_file` given the previous sha (line 147), and of `create_file`
(line 151). -/
structure FileRemote where
  createBlob : Res String
  getContents : Res String
  updateFile : String → Res Unit
  createFile : Res Unit

/-- The body of the `for file_path, rel_path in files_to_upload` loop
(lines 131-159) for one file.  Returns whether the file was counted as
uploaded (`True`) or skipped (`False`), the `InputGitTreeElement`s appended,
and the remote calls issued.  (`mimetypes.guess_type` on line 135 is local
and its result unused, so it is omitted.) -/
def processFile (fr : FileRemote) (branch : String) (f : SrcFile) :
    Bool × List InputGitTreeElement × List Call :=
  match f.readResult with
  | .err _ =>
    -- open/read raised: outer except (line 157) counts the file skipped
    (false, [], [])
  | .ok content =>
    if _is_binary content then
      match fr.createBlob with
      | .err _ => (false, [], [.create_git_blob content])
      | .ok blobSha =>
        (true, [⟨f.relPath, "100644", "blob", blobSha⟩], [.create_git_blob content])
    else
      -- inner try (lines 144-153): get_contents then update_file; an
      -- exception looking like 404/Not Found falls to create_file, anything
      -- else is re-raised into the outer except
      match fr.getContents with
      | .ok prevSha =>
        let issued : List Call :=
          [.get_contents f.relPath branch,
           .update_file f.relPath ("Update " ++ pathStr f.relPath) content prevSha branch]
        match fr.updateFile prevSha with
        | .ok _ => (true, [], issued)
        | .err e =>
          if e.looksNotFound then
            let issued2 := issued ++
              [.create_file f.relPath ("Add " ++ pathStr f.relPath) content branch]
            match fr.createFile with
            | .ok _ => (true, [], issued2)
            | .err _ => (false, [], issued2)
          else
            (false, [], issued)
      | .err e =>
        if e.looksNotFound then
          let issued := [.get_contents f.relPath branch,
            .create_file f.relPath ("Add " ++ pathStr f.relPath) content branch]
          match fr.createFile with
          | .ok _ => (true, [], issued)
          | .err _ => (false, [], issued)
        else
          (false, [], [.get_contents f.relPath branch])

/-- The loop's mutable state: `files_uploaded`, `files_skipped`,
`tree_elements` (lines 127-129). -/
structure LoopState where
  files_uploaded : Nat
  files_skipped : Nat
  tree_elements : List InputGitTreeElement
deriving DecidableEq, Repr

/-- How one iteration updates the loop state, given `processFile`'s result:
on success append the staged tree elements and increment `files_uploaded`
(lines 141, 155); on failure increment `files_skipped` (line 158). -/
def stepState (st : LoopState) (r : Bool × List InputGitTreeElement × List Call) :
    LoopState :=
  if r.1 then
    { st with
        files_uploaded := st.files_uploaded + 1,
        tree_elements := st.tree_elements ++ r.2.1 }
  else
    { st with files_skipped := st.files_skipped + 1 }

/-- The whole upload loop.  `fenv` gives the remote's behaviour towards each
file; every iteration either increments `files_uploaded` (appending that
file's tree elements first) or increments `files_skipped` and continues
with the next file. -/
def runLoop (fenv : SrcFile → FileRemote) (branch : String) :
    List SrcFile → LoopState → LoopState × List Call
  | [], st => (st, [])
  | f :: rest, st =>
    let r := processFile (fenv f) branch f
    let res := runLoop fenv branch rest (stepState st r)
    (res.1, r.2.2 ++ res.2)

/-! ### The final binary batch (`_upload_files`, lines 161-173) -/

/-- The remote's behaviour towards the final batch: `get_git_ref` (line 165,
ok = head commit sha), `get_git_commit` (line 166), `get_git_tree` (line 167,
ok = the fetched base tree's sha), `create_git_tree` (line 168),
`create_git_commit` (line 170), `ref.edit` (line 171). -/
structure BatchEnv where
  getRef : Res String
  getCommit : String → Res GitCommit
  getTree : String → Res String
  createTree : List InputGitTreeElement → String → Res String
  createCommit : String → String → List String → Res String
  editRef : String → Res Unit

/-- Lines 161-173: if any tree elements were staged, re-resolve the branch
head, build a tree on the current base, commit with the current head as sole
parent, and move the ref; the whole block is inside `try ... except: pass`,
so it only produces a trace and never a value or an exception. -/
def runBatch (env : BatchEnv) (branch : String)
    (tree_elements : List InputGitTreeElement) : List Call :=
  if tree_elements.isEmpty then []
  else
    match env.getRef with
    | .err _ => [.get_git_ref ("heads/" ++ branch)]
    | .ok headSha =>
      match env.getCommit headSha with
      | .err _ => [.get_git_ref ("heads/" ++ branch), .get_git_commit headSha]
      | .ok commit =>
        match env.getTree commit.tree with
        | .err _ =>
          [.get_git_ref ("heads/" ++ branch), .get_git_commit headSha,
           .get_git_tree commit.tree]
        | .ok baseTree =>
          match env.createTree tree_elements baseTree with
          | .err _ =>
            [.get_git_ref ("heads/" ++ branch), .get_git_commit headSha,
             .get_git_tree commit.tree, .create_git_tree tree_elements baseTree]
          | .ok newTree =>
            match env.createCommit "Add/update binary files" newTree [commit.sha] with
            | .err _ =>
              [.get_git_ref ("heads/" ++ branch), .get_git_commit headSha,
               .get_git_tree commit.tree, .create_git_tree tree_elements baseTree,
               .create_git_commit "Add/update binary files" newTree [commit.sha]]
            | .ok newCommit =>
              -- ref.edit is issued; its outcome is also absorbed by the except
              [.get_git_ref ("heads/" ++ branch), .get_git_commit headSha,
               .get_git_tree commit.tree, .create_git_tree tree_elements baseTree,
               .create_git_commit "Add/update binary files" newTree [commit.sha],
               .ref_edit newCommit]

/-! ### The "ensure branch exists" block (`_upload_files`, lines 88-124) -/

/-- The remote's behaviour towards the bootstrap block, one field per call
site.  `default_branch` models the `repo.default_branch` attribute. -/
structure BootstrapEnv where
  initRef : Res String                       -- line 90, ok = ref.object.sha
  getCommitInit : String → Res GitCommit     -- line 91
  getTreeInit : String → Res String          -- line 92
  createReadmeOverride : Res Unit            -- line 98
  createReadmeFromFile : Res Unit            -- line 106
  createReadmePlaceholder : Res Unit         -- line 110
  refetchRef : Res String                    -- line 113, ok = ref.object.sha
  getCommitRefetch : String → Res GitCommit  -- line 114
  getTreeRefetch : String → Res String       -- line 115
  getRefMain : Res String                    -- line 119, ok = ref.object.sha
  default_branch : String                    -- repo.default_branch (line 121)
  getRefDefault : String → Res String        -- line 121, arg = ref name
  createGitRef : String → Res Unit           -- line 122, arg = source sha
  getCommitNewBranch : String → Res GitCommit -- line 123
  getTreeNewBranch : String → Res String     -- line 124

/-- Python truthiness of the `readme_content` parameter (`if readme_content:`
on line 97): `None` and the empty string are falsy. -/
def truthy : Option String → Bool
  | none => false
  | some s => !(s == "")

/-- The search predicate of line 101: `str(rp).lower() == 'readme.md'`. -/
def isReadmeFile (f : SrcFile) : Bool := lowerStr (pathStr f.relPath) == "readme.md"

/-- Lines 112-115: re-fetch ref, commit and tree after the initial commit.
Any exception here escapes `_upload_files` (there is no enclosing handler).
`tr` is the trace accumulated so far. -/
def refetchAfterInit (env : BootstrapEnv) (files : List SrcFile)
    (branch : String) (tr : List Call) : Res (List SrcFile) × List Call :=
  match env.refetchRef with
  | .err e => (.err e, tr ++ [.get_git_ref ("heads/" ++ branch)])
  | .ok sha =>
    match env.getCommitRefetch sha with
    | .err e => (.err e, tr ++ [.get_git_ref ("heads/" ++ branch), .get_git_commit sha])
    | .ok c =>
      match env.getTreeRefetch c.tree with
      | .err e =>
        (.err e, tr ++ [.get_git_ref ("heads/" ++ branch), .get_git_commit sha,
          .get_git_tree c.tree])
      | .ok _ =>
        (.ok files, tr ++ [.get_git_ref ("heads/" ++ branch), .get_git_commit sha,
          .get_git_tree c.tree])

/-- Lines 96-115: empty-repository bootstrap.  Creates the single initial
commit (override README text, else the snapshot's own `README.md` — which is
then removed from `files_to_upload` — else a `# <project-name>` placeholder)
and then re-fetches ref/commit/tree.  Returns the possibly-shrunk
`files_to_upload` or the escaping exception, plus the calls issued.  `tr` is
the trace accumulated before entering the handler. -/
def emptyRepoBoot (env : BootstrapEnv) (files : List SrcFile)
    (readme_content : Option String) (projectName branch : String)
    (tr : List Call) : Res (List SrcFile) × List Call :=
  if truthy readme_content then
    match env.createReadmeOverride with
    | .err e =>
      (.err e, tr ++ [.create_file ["README.md"] "Initial commit: README.md"
        (strBytes (readme_content.getD "")) branch])
    | .ok _ =>
      refetchAfterInit env files branch
        (tr ++ [.create_file ["README.md"] "Initial commit: README.md"
          (strBytes (readme_content.getD "")) branch])
  else
    match files.find? isReadmeFile with
    | some t =>
      match t.readResult with
      | .err e =>
        -- `open(file_path, 'rb')`/`f.read()` raised: escapes (no handler)
        (.err e, tr)
      | .ok content =>
        if utf8Valid content then
          match env.createReadmeFromFile with
          | .err e =>
            (.err e, tr ++ [.create_file t.relPath
              ("Initial commit: " ++ pathStr t.relPath) content branch])
          | .ok _ =>
            refetchAfterInit env (files.filter (fun x => !(x == t))) branch
              (tr ++ [.create_file t.relPath
                ("Initial commit: " ++ pathStr t.relPath) content branch])
        else
          -- `content.decode('utf-8')` raised UnicodeDecodeError
          -- (no status attribute, message matches neither pattern): escapes
          (.err ⟨false, false⟩, tr)
    | none =>
      match env.createReadmePlaceholder with
      | .err e =>
        (.err e, tr ++ [.create_file ["README.md"] "Initial commit: README.md"
          (strBytes ("# " ++ projectName)) branch])
      | .ok _ =>
        refetchAfterInit env files branch
          (tr ++ [.create_file ["README.md"] "Initial commit: README.md"
            (strBytes ("# " ++ projectName)) branch])

/-- Lines 122-124, after `master_ref` is resolved to `masterSha`. -/
def missingBranchAfterMaster (env : BootstrapEnv) (files : List SrcFile)
    (branch : String) (masterSha : String) (tr : List Call) :
    Res (List SrcFile) × List Call :=
  match env.createGitRef masterSha with
  | .err e => (.err e, tr ++ [.create_git_ref ("refs/heads/" ++ branch) masterSha])
  | .ok _ =>
    match env.getCommitNewBranch masterSha with
    | .err e =>
      (.err e, tr ++ [.create_git_ref ("refs/heads/" ++ branch) masterSha,
        .get_git_commit masterSha])
    | .ok c =>
      match env.getTreeNewBranch c.tree with
      | .err e =>
        (.err e, tr ++ [.create_git_ref ("refs/heads/" ++ branch) masterSha,
          .get_git_commit masterSha, .get_git_tree c.tree])
      | .ok _ =>
        (.ok files, tr ++ [.create_git_ref ("refs/heads/" ++ branch) masterSha,
          .get_git_commit masterSha, .get_git_tree c.tree])

/-- Lines 116-124: the branch is assumed missing; resolve `heads/main` first,
fall back to `heads/{repo.default_branch}` on any exception, then create the
target branch ref at the resolved sha and fetch its commit and tree.  `tr` is
the trace accumulated before entering the handler. -/
def missingBranchBoot (env : BootstrapEnv) (files : List SrcFile)
    (branch : String) (tr : List Call) : Res (List SrcFile) × List Call :=
  match env.getRefMain with
  | .ok masterSha =>
    missingBranchAfterMaster env files branch masterSha
      (tr ++ [.get_git_ref "heads/main"])
  | .err _ =>
    match env.getRefDefault ("heads/" ++ env.default_branch) with
    | .err e =>
      (.err e, tr ++ [.get_git_ref "heads/main",
        .get_git_ref ("heads/" ++ env.default_branch)])
    | .ok masterSha =>
      missingBranchAfterMaster env files branch masterSha
        (tr ++ [.get_git_ref "heads/main",
          .get_git_ref ("heads/" ++ env.default_branch)])

/-- The `except` handler of lines 93-124: dispatch on the empty-repo test of
line 95; every other exception is treated as "branch does not exist". -/
def bootHandler (env : BootstrapEnv) (files : List SrcFile)
    (readme_content : Option String) (projectName branch : String)
    (e : Exn) (tr : List Call) : Res (List SrcFile) × List Call :=
  if e.isEmptyRepo then
    emptyRepoBoot env files readme_content projectName branch tr
  else
    missingBranchBoot env files branch tr

/-- The whole `try`/`except` of lines 88-124.  An exception anywhere in
lines 90-92 reaches the handler.  Returns the (possibly shrunk)
`files_to_upload` or the exception escaping `_upload_files`, plus the calls
issued. -/
def bootstrap (env : BootstrapEnv) (files : List SrcFile)
    (readme_content : Option String) (projectName branch : String) :
    Res (List SrcFile) × List Call :=
  match env.initRef with
  | .err e =>
    bootHandler env files readme_content projectName branch e
      [.get_git_ref ("heads/" ++ branch)]
  | .ok sha =>
    match env.getCommitInit sha with
    | .err e =>
      bootHandler env files readme_content projectName branch e
        [.get_git_ref ("heads/" ++ branch), .get_git_commit sha]
    | .ok c =>
      match env.getTreeInit c.tree with
      | .err e =>
        bootHandler env files readme_content projectName branch e
          [.get_git_ref ("heads/" ++ branch), .get_git_commit sha,
           .get_git_tree c.tree]
      | .ok _ =>
        (.ok files, [.get_git_ref ("heads/" ++ branch), .get_git_commit sha,
          .get_git_tree c.tree])

/-! ### `_upload_files` and `deploy_project` -/

/-- The remote's whole behaviour towards one run of `_upload_files`. -/
structure UploadEnv where
  boot : BootstrapEnv
  fileRemote : SrcFile → FileRemote
  batch : BatchEnv

/-- `GitHubManager._upload_files` (lines 73-178) from the point where
`files_to_upload` has been gathered: bootstrap, the per-file loop, the final
binary batch.  Returns `(files_uploaded, files_skipped)` (the dict of
lines 175-178) or the exception escaping the method, plus the calls issued. -/
def _upload_files (env : UploadEnv) (files : List SrcFile)
    (readme_content : Option String) (projectName branch : String) :
    Res (Nat × Nat) × List Call :=
  match (bootstrap env.boot files readme_content projectName branch).1 with
  | .err e => (.err e, (bootstrap env.boot files readme_content projectName branch).2)
  | .ok files2 =>
    (.ok ((runLoop env.fileRemote branch files2 ⟨0, 0, []⟩).1.files_uploaded,
          (runLoop env.fileRemote branch files2 ⟨0, 0, []⟩).1.files_skipped),
     (bootstrap env.boot files readme_content projectName branch).2 ++
       (runLoop env.fileRemote branch files2 ⟨0, 0, []⟩).2 ++
       runBatch env.batch branch
         (runLoop env.fileRemote branch files2 ⟨0, 0, []⟩).1.tree_elements)

/-- The repository object, as `deploy_project` uses it. -/
structure Repo where
  html_url : String
deriving DecidableEq, Repr

/-- The dict returned by `deploy_project` (lines 37-41 / 46-54). -/
inductive DeployResult where
  | failure (error : String)
  | success (repository_url : String) (repository_name : String)
      (branch : String) (privateFlag : Bool) (files_uploaded : Nat)
      (files_skipped : Nat)
deriving DecidableEq, Repr

/-- `GitHubManager.deploy_project` (lines 36-54) from the point where the
project has been analyzed and the repo name sanitized: `repoLookup` is the
result of `_get_or_create_repo` (`none` = it returned `None`).  An exception
raised inside `_upload_files` escapes `deploy_project` (there is no handler
in it). -/
def deploy_project (repoLookup : Option Repo) (env : UploadEnv)
    (files : List SrcFile) (readme_content : Option String)
    (repo_name projectName branch : String) (privateFlag : Bool) :
    Res DeployResult × List Call :=
  match repoLookup with
  | none =>
    (.ok (.failure ("Failed to get or create repository: " ++ repo_name)), [])
  | some repo =>
    match (_upload_files env files readme_content projectName branch).1 with
    | .err e => (.err e, (_upload_files env files readme_content projectName branch).2)
    | .ok (u, s) =>
      (.ok (.success repo.html_url repo_name branch privateFlag u s),
       (_upload_files env files readme_content projectName branch).2)

/-! ### Concrete fixture environments (used by witnesses and
counterexamples) -/

/-- A fully succeeding remote for the bootstrap block. -/
def okBootEnv : BootstrapEnv where
  initRef := .ok "c0"
  getCommitInit := fun _ => .ok ⟨"c0", "t0"⟩
  getTreeInit := fun _ => .ok "t0"
  createReadmeOverride := .ok ()
  createReadmeFromFile := .ok ()
  createReadmePlaceholder := .ok ()
  refetchRef := .ok "c1"
  getCommitRefetch := fun _ => .ok ⟨"c1", "t1"⟩
  getTreeRefetch := fun _ => .ok "t1"
  getRefMain := .ok "m0"
  default_branch := "main"
  getRefDefault := fun _ => .ok "m0"
  createGitRef := fun _ => .ok ()
  getCommitNewBranch := fun _ => .ok ⟨"m0", "mt"⟩
  getTreeNewBranch := fun _ => .ok "mt"

/-- A fully succeeding remote for one file of the upload loop. -/
def okFileRemote : FileRemote where
  createBlob := .ok "blobsha"
  getContents := .ok "prevsha"
  updateFile := fun _ => .ok ()
  createFile := .ok ()

/-- A fully succeeding remote for the final binary batch. -/
def okBatchEnv : BatchEnv where
  getRef := .ok "h1"
  getCommit := fun s => .ok ⟨s, s ++ ".t"⟩
  getTree := fun s => .ok s
  createTree := fun _ b => .ok ("tree." ++ b)
  createCommit := fun _ t _ => .ok ("commit." ++ t)
  editRef := fun _ => .ok ()

/-- A fully succeeding remote for a whole run. -/
def okUploadEnv : UploadEnv := ⟨okBootEnv, fun _ => okFileRemote, okBatchEnv⟩

/-- The empty-repository exception of line 95. -/
def emptyRepoExn : Exn := ⟨true, false⟩

/-- An exception that is neither the empty-repo signal nor 404-like
(e.g. a transport error). -/
def plainExn : Exn := ⟨false, false⟩

/-- A 404 / Not Found exception. -/
def notFoundExn : Exn := ⟨false, true⟩

/-- A remote that fails every per-file call with a transport-like error. -/
def failFileRemote : FileRemote where
  createBlob := .err plainExn
  getContents := .err plainExn
  updateFile := fun _ => .err plainExn
  createFile := .err plainExn

/-- A repository whose target branch is missing (the initial ref lookup
raises a non-empty-repo exception), whose hardcoded branch `main` exists with
head `mainsha`, and whose configured default branch is `develop` with head
`devsha` — so the default branch is determinable. -/
def c6Env : BootstrapEnv :=
  { okBootEnv with
      initRef := .err plainExn
      getRefMain := .ok "mainsha"
      default_branch := "develop"
      getRefDefault := fun _ => .ok "devsha" }

/-! ### Derived predicates used by the claim statements -/

/-- Eligibility of a collected entry: every directory component survived
pruning, the file name is neither a dot-file nor in the exclusion set, and
the size is within the ceiling. -/
def entryOk (e : Entry) : Prop :=
  (∀ d ∈ e.dirs, dirKept d = true) ∧
  startswithDot e.name = false ∧
  e.name ∉ EXCLUDE_PATTERNS ∧
  e.size ≤ MAX_FILE_SIZE

/-- Whether the `try` of lines 88-92 fails with the empty-repository signal
of line 95, i.e. whether the run enters the empty-repository bootstrap. -/
def emptySignal (env : BootstrapEnv) : Bool :=
  match env.initRef with
  | .err e => e.isEmptyRepo
  | .ok sha =>
    match env.getCommitInit sha with
    | .err e => e.isEmptyRepo
    | .ok c =>
      match env.getTreeInit c.tree with
      | .err e => e.isEmptyRepo
      | .ok _ => false

/-- Whether the empty-repository bootstrap consumes a `README.md` from the
snapshot (lines 100-107): the empty-repo path is taken, no override text was
supplied, and the snapshot contains a file matching the search of line 101. -/
def readmeConsumed (env : BootstrapEnv) (files : List SrcFile)
    (readme_content : Option String) : Bool :=
  emptySignal env && !(truthy readme_content) && (files.find? isReadmeFile).isSome

/-! ## Claim theorems -/

/-- **C3.**  The content classifier is a total pure function on byte
sequences (a total Lean function by construction): a sequence containing the
byte `0x00` is classified binary; a NUL-free sequence that decodes as valid
UTF-8 is classified text; a NUL-free sequence that fails UTF-8 decoding is
classified binary.  Stated as one equation covering all three cases, with no
failure case in the type. -/
theorem is_binary_classification (content : List Nat) :
    _is_binary content = (content.contains 0 || !(utf8Valid content)) := by
  unfold _is_binary
  cases h0 : content.contains 0 <;> cases h1 : utf8Valid content <;> simp [h0, h1]

/-! ### C8: the collection filters -/

theorem walkFiles_entryOk (pre : List String) (children : List FsNode)
    (hpre : ∀ d ∈ pre, dirKept d = true) :
    ∀ e ∈ walkFiles pre children, entryOk e := by
  intro e he
  simp only [walkFiles, List.mem_filterMap] at he
  obtain ⟨n, _, hsome⟩ := he
  cases n with
  | file name size =>
    simp at hsome
    obtain ⟨⟨hdot, hexc⟩, hsize, heq⟩ := hsome
    subst heq
    exact ⟨hpre, hdot, hexc, hsize⟩
  | dir name ch => simp at hsome

theorem walkSubdirs_entryOk :
    ∀ (pre : List String) (l : List FsNode),
      (∀ d ∈ pre, dirKept d = true) → ∀ e ∈ walkSubdirs pre l, entryOk e := by
  refine walkSubdirs.induct
    (fun pre n => (∀ d ∈ pre, dirKept d = true) → ∀ e ∈ walkNode pre n, entryOk e)
    (fun pre l => (∀ d ∈ pre, dirKept d = true) → ∀ e ∈ walkSubdirs pre l, entryOk e)
    ?_ ?_ ?_ ?_ ?_
  · intro pre name size _ e he
    simp [walkNode] at he
  · intro pre name ch hkept ih hpre e he
    have hpre' : ∀ d ∈ pre ++ [name], dirKept d = true := by
      intro d hd
      rcases List.mem_append.mp hd with h | h
      · exact hpre d h
      · simp only [List.mem_singleton] at h
        subst h; exact hkept
    simp only [walkNode, if_pos hkept] at he
    rcases List.mem_append.mp he with h | h
    · exact walkFiles_entryOk _ _ hpre' e h
    · exact ih hpre' e h
  · intro pre name ch hnk _ e he
    simp only [walkNode, if_neg hnk] at he
    simp at he
  · intro pre _ e he
    simp [walkSubdirs] at he
  · intro pre n rest ih1 ih2 hpre e he
    simp only [walkSubdirs] at he
    rcases List.mem_append.mp he with h | h
    · exact ih1 hpre e h
    · exact ih2 hpre e h

/-- **C8.**  Oversized files (strictly above the 5 MiB ceiling), files or
directories whose names start with a dot, and files or directories in
`EXCLUDE_PATTERNS` are never collected into `files_to_upload`: every
collected entry has only pruned-surviving directory components, a name that
is neither a dot-name nor excluded, and a size within the ceiling.  Since the
upload loop iterates exactly over this list (see the accounting theorems),
such files are never uploaded, never staged, and never counted skipped. -/
theorem collectFiles_only_eligible (children : List FsNode) (e : Entry)
    (he : e ∈ collectFiles children) :
    (∀ d ∈ e.dirs, dirKept d = true) ∧
    startswithDot e.name = false ∧
    e.name ∉ EXCLUDE_PATTERNS ∧
    e.size ≤ MAX_FILE_SIZE := by
  rcases List.mem_append.mp he with h | h
  · exact walkFiles_entryOk [] children (by simp) e h
  · exact walkSubdirs_entryOk [] children (by simp) e h

/-- Witness for C8 at a concrete tree: `src/m.py` is collected, and the
theorem yields its eligibility facts. -/
theorem collectFiles_only_eligible_witness :
    (∀ d ∈ ["src"], dirKept d = true) ∧
    startswithDot "m.py" = false ∧
    "m.py" ∉ EXCLUDE_PATTERNS ∧
    (7 : Nat) ≤ MAX_FILE_SIZE :=
  collectFiles_only_eligible
    [.file ".env" 3, .dir "src" [.file "m.py" 7]]
    ⟨["src"], "m.py", 7⟩ (by decide)

/-! ### Loop accounting -/

theorem stepState_counts (st : LoopState)
    (r : Bool × List InputGitTreeElement × List Call) :
    (stepState st r).files_uploaded + (stepState st r).files_skipped =
      st.files_uploaded + st.files_skipped + 1 := by
  by_cases h : r.1 <;> simp [stepState, h] <;> omega

/-- Every iteration of the upload loop increments exactly one of the two
counters, so their sum grows by exactly the number of files processed. -/
theorem runLoop_counts (fenv : SrcFile → FileRemote) (branch : String) :
    ∀ (files : List SrcFile) (st : LoopState),
      ((runLoop fenv branch files st).1).files_uploaded +
        ((runLoop fenv branch files st).1).files_skipped =
        st.files_uploaded + st.files_skipped + files.length := by
  intro files
  induction files with
  | nil => intro st; simp [runLoop]
  | cons f rest ih =>
    intro st
    have h1 := ih (stepState st (processFile (fenv f) branch f))
    have h2 := stepState_counts st (processFile (fenv f) branch f)
    show ((runLoop fenv branch rest
        (stepState st (processFile (fenv f) branch f))).1).files_uploaded +
      ((runLoop fenv branch rest
        (stepState st (processFile (fenv f) branch f))).1).files_skipped = _
    rw [h1, h2]
    simp [List.length_cons]
    omega

theorem length_filter_bne_of_nodup {α : Type} [DecidableEq α] :
    ∀ (l : List α) (t : α), l.Nodup → t ∈ l →
      (l.filter (fun x => !(x == t))).length = l.length - 1 := by
  intro l t hnd ht
  induction l with
  | nil => cases ht
  | cons a rest ih =>
    rcases List.mem_cons.mp ht with rfl | hmem
    · have hrest : rest.filter (fun x => !(x == t)) = rest := by
        apply List.filter_eq_self.mpr
        intro x hx
        have hne : x ≠ t := by
          intro hcontra
          subst hcontra
          exact (List.nodup_cons.mp hnd).1 hx
        simp [hne]
      simp [List.filter_cons, hrest]
    · have hne : a ≠ t := by
        intro hcontra
        subst hcontra
        exact (List.nodup_cons.mp hnd).1 hmem
      have hlen := ih (List.nodup_cons.mp hnd).2 hmem
      have hpos : 0 < rest.length := List.length_pos_of_mem hmem
      simp [List.filter_cons, hne, hlen]
      omega

/-! ### Bootstrap shape lemmas -/

theorem refetchAfterInit_ok_files (env : BootstrapEnv) (files files2 : List SrcFile)
    (branch : String) (tr : List Call)
    (h : (refetchAfterInit env files branch tr).1 = .ok files2) :
    files2 = files := by
  unfold refetchAfterInit at h
  repeat' split at h
  all_goals simp_all

theorem missingBranchAfterMaster_ok_files (env : BootstrapEnv)
    (files files2 : List SrcFile) (branch masterSha : String) (tr : List Call)
    (h : (missingBranchAfterMaster env files branch masterSha tr).1 = .ok files2) :
    files2 = files := by
  unfold missingBranchAfterMaster at h
  repeat' split at h
  all_goals simp_all

theorem missingBranchBoot_ok_files (env : BootstrapEnv)
    (files files2 : List SrcFile) (branch : String) (tr : List Call)
    (h : (missingBranchBoot env files branch tr).1 = .ok files2) :
    files2 = files := by
  unfold missingBranchBoot at h
  cases h1 : env.getRefMain with
  | ok sha =>
    rw [h1] at h
    exact missingBranchAfterMaster_ok_files _ _ _ _ _ _ h
  | err e =>
    rw [h1] at h
    simp only [] at h
    cases h2 : env.getRefDefault ("heads/" ++ env.default_branch) with
    | err e2 => rw [h2] at h; simp at h
    | ok sha =>
      rw [h2] at h
      exact missingBranchAfterMaster_ok_files _ _ _ _ _ _ h

theorem emptyRepoBoot_ok_override (env : BootstrapEnv)
    (files files2 : List SrcFile) (rc : Option String) (pn br : String)
    (tr : List Call)
    (htr : truthy rc = true)
    (h : (emptyRepoBoot env files rc pn br tr).1 = .ok files2) :
    files2 = files := by
  unfold emptyRepoBoot at h
  rw [if_pos htr] at h
  cases hcr : env.createReadmeOverride with
  | err e => rw [hcr] at h; simp at h
  | ok u => rw [hcr] at h; exact refetchAfterInit_ok_files _ _ _ _ _ h

theorem emptyRepoBoot_ok_fromSnapshot (env : BootstrapEnv)
    (files files2 : List SrcFile) (rc : Option String) (pn br : String)
    (tr : List Call) (t : SrcFile)
    (htr : truthy rc = false)
    (hfind : files.find? isReadmeFile = some t)
    (h : (emptyRepoBoot env files rc pn br tr).1 = .ok files2) :
    files2 = files.filter (fun x => !(x == t)) := by
  unfold emptyRepoBoot at h
  rw [if_neg (by simp [htr]), hfind] at h
  simp only [] at h
  cases hread : t.readResult with
  | err e => rw [hread] at h; simp at h
  | ok content =>
    rw [hread] at h
    simp only [] at h
    by_cases hval : utf8Valid content = true
    · rw [if_pos hval] at h
      cases hcr : env.createReadmeFromFile with
      | err e => rw [hcr] at h; simp at h
      | ok u =>
        rw [hcr] at h
        exact refetchAfterInit_ok_files _ _ _ _ _ h
    · rw [if_neg hval] at h
      simp at h

theorem emptyRepoBoot_ok_placeholder (env : BootstrapEnv)
    (files files2 : List SrcFile) (rc : Option String) (pn br : String)
    (tr : List Call)
    (htr : truthy rc = false)
    (hfind : files.find? isReadmeFile = none)
    (h : (emptyRepoBoot env files rc pn br tr).1 = .ok files2) :
    files2 = files := by
  unfold emptyRepoBoot at h
  rw [if_neg (by simp [htr]), hfind] at h
  simp only [] at h
  cases hcr : env.createReadmePlaceholder with
  | err e => rw [hcr] at h; simp at h
  | ok u => rw [hcr] at h; exact refetchAfterInit_ok_files _ _ _ _ _ h

theorem emptySignal_of_initRef_err (env : BootstrapEnv) (e : Exn)
    (h1 : env.initRef = .err e) : emptySignal env = e.isEmptyRepo := by
  simp only [emptySignal, h1]

theorem emptySignal_of_getCommit_err (env : BootstrapEnv) (sha : String) (e : Exn)
    (h1 : env.initRef = .ok sha) (h2 : env.getCommitInit sha = .err e) :
    emptySignal env = e.isEmptyRepo := by
  simp only [emptySignal, h1, h2]

theorem emptySignal_of_getTree_err (env : BootstrapEnv) (sha : String)
    (c : GitCommit) (e : Exn)
    (h1 : env.initRef = .ok sha) (h2 : env.getCommitInit sha = .ok c)
    (h3 : env.getTreeInit c.tree = .err e) :
    emptySignal env = e.isEmptyRepo := by
  simp only [emptySignal, h1, h2, h3]

theorem emptySignal_of_resolved (env : BootstrapEnv) (sha : String)
    (c : GitCommit) (t : String)
    (h1 : env.initRef = .ok sha) (h2 : env.getCommitInit sha = .ok c)
    (h3 : env.getTreeInit c.tree = .ok t) :
    emptySignal env = false := by
  simp only [emptySignal, h1, h2, h3]

theorem bootHandler_ok_length (env : BootstrapEnv) (files files2 : List SrcFile)
    (rc : Option String) (pn br : String) (e : Exn) (tr : List Call)
    (hnd : files.Nodup)
    (hsig : emptySignal env = e.isEmptyRepo)
    (hh : (bootHandler env files rc pn br e tr).1 = .ok files2) :
    files2.length =
      files.length - (if readmeConsumed env files rc then 1 else 0) := by
  unfold bootHandler at hh
  by_cases hemp : e.isEmptyRepo = true
  · rw [if_pos hemp] at hh
    by_cases htr : truthy rc = true
    · rw [emptyRepoBoot_ok_override env files files2 rc pn br tr htr hh]
      simp [readmeConsumed, htr]
    · have htr2 : truthy rc = false := by simpa using htr
      cases hfind : files.find? isReadmeFile with
      | some t =>
        have hmem : t ∈ files := List.mem_of_find?_eq_some hfind
        rw [emptyRepoBoot_ok_fromSnapshot env files files2 rc pn br tr t htr2 hfind hh]
        rw [length_filter_bne_of_nodup files t hnd hmem]
        have hrc : readmeConsumed env files rc = true := by
          simp [readmeConsumed, hsig, hemp, htr2, hfind]
        rw [hrc]
        simp
      | none =>
        rw [emptyRepoBoot_ok_placeholder env files files2 rc pn br tr htr2 hfind hh]
        have hrc : readmeConsumed env files rc = false := by
          simp [readmeConsumed, hfind]
        rw [hrc]
        simp
  · rw [if_neg hemp] at hh
    rw [missingBranchBoot_ok_files env files files2 br tr hh]
    have hsig2 : emptySignal env = false := by
      rw [hsig]
      simpa using hemp
    simp [readmeConsumed, hsig2]

theorem bootstrap_ok_length (env : BootstrapEnv) (files files2 : List SrcFile)
    (rc : Option String) (pn br : String)
    (hnd : files.Nodup)
    (h : (bootstrap env files rc pn br).1 = .ok files2) :
    files2.length =
      files.length - (if readmeConsumed env files rc then 1 else 0) := by
  unfold bootstrap at h
  cases h1 : env.initRef with
  | err e =>
    rw [h1] at h
    exact bootHandler_ok_length env files files2 rc pn br e _ hnd
      (emptySignal_of_initRef_err env e h1) h
  | ok sha =>
    rw [h1] at h
    simp only [] at h
    cases h2 : env.getCommitInit sha with
    | err e =>
      rw [h2] at h
      exact bootHandler_ok_length env files files2 rc pn br e _ hnd
        (emptySignal_of_getCommit_err env sha e h1 h2) h
    | ok c =>
      rw [h2] at h
      simp only [] at h
      cases h3 : env.getTreeInit c.tree with
      | err e =>
        rw [h3] at h
        exact bootHandler_ok_length env files files2 rc pn br e _ hnd
          (emptySignal_of_getTree_err env sha c e h1 h2 h3) h
      | ok t =>
        rw [h3] at h
        have hfe : files2 = files := by simpa using h.symm
        subst hfe
        have hsig2 : emptySignal env = false :=
          emptySignal_of_resolved env sha c t h1 h2 h3
        simp [readmeConsumed, hsig2]

/-- **C2.**  For a snapshot with pairwise-distinct entries, after one run
whose bootstrap succeeded (so `_upload_files` returned its dict), every
eligible file is counted in exactly one of the two counters:
`files_uploaded + files_skipped` equals the number of eligible files, minus
one exactly when a `README.md` from the snapshot was consumed by the
empty-repository bootstrap.  (The count is independent of whether the final
binary batch failed; the batch does not touch the counters.) -/
theorem uploaded_plus_skipped_accounts_all (env : UploadEnv)
    (files : List SrcFile) (rc : Option String) (pn br : String) (u s : Nat)
    (hnd : files.Nodup)
    (h : (_upload_files env files rc pn br).1 = .ok (u, s)) :
    u + s = files.length - (if readmeConsumed env.boot files rc then 1 else 0) := by
  unfold _upload_files at h
  cases hb : (bootstrap env.boot files rc pn br).1 with
  | err e => rw [hb] at h; simp at h
  | ok files2 =>
    rw [hb] at h
    simp at h
    obtain ⟨hu, hs⟩ := h
    have hcount := runLoop_counts env.fileRemote br files2 ⟨0, 0, []⟩
    have hlen := bootstrap_ok_length env.boot files files2 rc pn br hnd hb
    simp at hcount
    omega

/-! ### C7, C1, C9: per-file behaviour of the upload loop -/

/-- **C7.**  Every per-file failure — local read failure, blob-creation
failure for a binary file, a non-404 `get_contents` failure (transport
error), or a non-404 `update_file` rejection (stale optimistic-concurrency
token) — makes `processFile` return skipped (`false`) with no staged
`InputGitTreeElement`, and a skipped file increments `files_skipped` by
exactly one while the loop continues with the remaining files; no per-file
failure aborts the run (the loop is a total function). -/
theorem per_file_failure_skipped_and_continues (fr : FileRemote) (f : SrcFile)
    (branch : String) :
    (∀ e, f.readResult = .err e → processFile fr branch f = (false, [], [])) ∧
    (∀ content e, f.readResult = .ok content → _is_binary content = true →
      fr.createBlob = .err e →
      processFile fr branch f = (false, [], [.create_git_blob content])) ∧
    (∀ content e, f.readResult = .ok content → _is_binary content = false →
      fr.getContents = .err e → e.looksNotFound = false →
      processFile fr branch f = (false, [], [.get_contents f.relPath branch])) ∧
    (∀ content prevSha e, f.readResult = .ok content → _is_binary content = false →
      fr.getContents = .ok prevSha → fr.updateFile prevSha = .err e →
      e.looksNotFound = false →
      processFile fr branch f =
        (false, [],
         [.get_contents f.relPath branch,
          .update_file f.relPath ("Update " ++ pathStr f.relPath) content
            prevSha branch])) ∧
    (∀ (fenv : SrcFile → FileRemote) (rest : List SrcFile) (st : LoopState),
      fenv f = fr → (processFile fr branch f).1 = false →
      (runLoop fenv branch (f :: rest) st).1 =
        (runLoop fenv branch rest
          { st with files_skipped := st.files_skipped + 1 }).1) := by
  refine ⟨?_, ?_, ?_, ?_, ?_⟩
  · intro e he
    simp [processFile, he]
  · intro content e hread hbin hblob
    simp [processFile, hread, hbin, hblob]
  · intro content e hread hbin hget hnf
    simp [processFile, hread, hbin, hget, hnf]
  · intro content prevSha e hread hbin hget hupd hnf
    simp [processFile, hread, hbin, hget, hupd, hnf]
  · intro fenv rest st hf hfail
    show (runLoop fenv branch rest
        (stepState st (processFile (fenv f) branch f))).1 = _
    rw [hf]
    unfold stepState
    rw [if_neg (by simp [hfail])]

/-- Witness for C7: a text file whose `get_contents` raises a transport
error is skipped with only that call issued. -/
theorem per_file_failure_skipped_and_continues_witness :
    processFile failFileRemote "main" ⟨["a.txt"], .ok [104]⟩ =
      (false, [], [.get_contents ["a.txt"] "main"]) :=
  (per_file_failure_skipped_and_continues failFileRemote
      ⟨["a.txt"], .ok [104]⟩ "main").2.2.1
    [104] plainExn rfl (by decide) rfl rfl

/-- **C1.**  A binary file whose blob creation succeeded is counted as
uploaded at staging time (`processFile` returns `true` with the staged
element), and the final create-tree/create-commit/update-ref sequence cannot
change the outcome: `_upload_files`' returned value (success and both
counters) is identical under any two behaviours of the batch remote, so a
failing final sequence is absorbed — no exception escapes and no decrement
happens. -/
theorem binary_counted_at_staging_batch_failure_absorbed
    (fr : FileRemote) (f : SrcFile) (content : List Nat) (blobSha : String)
    (branch : String)
    (hread : f.readResult = .ok content)
    (hbin : _is_binary content = true)
    (hblob : fr.createBlob = .ok blobSha) :
    processFile fr branch f =
      (true, [⟨f.relPath, "100644", "blob", blobSha⟩], [.create_git_blob content]) ∧
    ∀ (env : UploadEnv) (b1 b2 : BatchEnv) (files : List SrcFile)
      (rc : Option String) (pn br : String),
      (_upload_files { env with batch := b1 } files rc pn br).1 =
        (_upload_files { env with batch := b2 } files rc pn br).1 := by
  constructor
  · simp [processFile, hread, hbin, hblob]
  · intro env b1 b2 files rc pn br
    unfold _upload_files
    cases hb : (bootstrap env.boot files rc pn br).1 with
    | err e => simp [hb]
    | ok files2 => simp [hb]

/-- Witness for C1: a blob-backed binary file (`b.bin`, a NUL byte) under the
fully succeeding remote. -/
theorem binary_counted_at_staging_batch_failure_absorbed_witness :
    processFile okFileRemote "main" ⟨["b.bin"], .ok [0]⟩ =
      (true, [⟨["b.bin"], "100644", "blob", "blobsha"⟩], [.create_git_blob [0]]) ∧
    ∀ (env : UploadEnv) (b1 b2 : BatchEnv) (files : List SrcFile)
      (rc : Option String) (pn br : String),
      (_upload_files { env with batch := b1 } files rc pn br).1 =
        (_upload_files { env with batch := b2 } files rc pn br).1 :=
  binary_counted_at_staging_batch_failure_absorbed okFileRemote
    ⟨["b.bin"], .ok [0]⟩ [0] "blobsha" "main" rfl (by decide) rfl

/-- **C9.**  No content-comparison short-circuit: in a run against remote
state where every file already exists at its path (the second run against an
unchanged tree), the loop issues an `update_file` call for every text file
and counts every one of them as uploaded again — `files_uploaded` grows by
the full file count, not zero. -/
theorem second_run_reuploads_every_text_file (fenv : SrcFile → FileRemote)
    (branch : String) (files : List SrcFile)
    (hall : ∀ f ∈ files, ∃ content prevSha,
      f.readResult = .ok content ∧ _is_binary content = false ∧
      (fenv f).getContents = .ok prevSha ∧
      (fenv f).updateFile prevSha = .ok ()) :
    ∀ st : LoopState,
      (runLoop fenv branch files st).1.files_uploaded =
        st.files_uploaded + files.length ∧
      ∀ f ∈ files, ∃ content prevSha,
        Call.update_file f.relPath ("Update " ++ pathStr f.relPath) content
          prevSha branch ∈ (runLoop fenv branch files st).2 := by
  induction files with
  | nil => intro st; exact ⟨by simp [runLoop], by simp⟩
  | cons f rest ih =>
    intro st
    obtain ⟨content, prevSha, hread, hbin, hget, hupd⟩ := hall f (by simp)
    have hproc : processFile (fenv f) branch f =
        (true, [],
         [.get_contents f.relPath branch,
          .update_file f.relPath ("Update " ++ pathStr f.relPath) content
            prevSha branch]) := by
      simp [processFile, hread, hbin, hget, hupd]
    have hrest := ih (fun g hg => hall g (by simp [hg]))
      (stepState st (processFile (fenv f) branch f))
    constructor
    · show (runLoop fenv branch rest
          (stepState st (processFile (fenv f) branch f))).1.files_uploaded = _
      rw [hrest.1, hproc]
      simp [stepState]
      omega
    · intro g hg
      rcases List.mem_cons.mp hg with rfl | hgrest
      · refine ⟨content, prevSha, ?_⟩
        show _ ∈ (processFile (fenv g) branch g).2.2 ++
          (runLoop fenv branch rest (stepState st (processFile (fenv g) branch g))).2
        rw [hproc]
        simp
      · obtain ⟨c2, p2, hmem⟩ := hrest.2 g hgrest
        refine ⟨c2, p2, ?_⟩
        show _ ∈ (processFile (fenv f) branch f).2.2 ++
          (runLoop fenv branch rest (stepState st (processFile (fenv f) branch f))).2
        exact List.mem_append_right _ hmem

/-- Witness for C9: a single pre-existing text file under the fully
succeeding remote is updated and counted again. -/
theorem second_run_reuploads_every_text_file_witness :
    (runLoop (fun _ => okFileRemote) "main" [⟨["a.txt"], .ok [104]⟩]
        ⟨0, 0, []⟩).1.files_uploaded =
      (0 : Nat) + [(⟨["a.txt"], .ok [104]⟩ : SrcFile)].length ∧
    ∀ f ∈ [(⟨["a.txt"], .ok [104]⟩ : SrcFile)], ∃ content prevSha,
      Call.update_file f.relPath ("Update " ++ pathStr f.relPath) content
        prevSha "main" ∈
        (runLoop (fun _ => okFileRemote) "main" [⟨["a.txt"], .ok [104]⟩]
          ⟨0, 0, []⟩).2 :=
  second_run_reuploads_every_text_file (fun _ => okFileRemote) "main"
    [⟨["a.txt"], .ok [104]⟩]
    (by
      intro f hf
      simp only [List.mem_singleton] at hf
      subst hf
      exact ⟨[104], "prevsha", rfl, by decide, rfl, rfl⟩)
    ⟨0, 0, []⟩

/-- Witness for C2: one ordinary text file, fully succeeding remote;
`1 + 0 = 1 - 0`. -/
theorem uploaded_plus_skipped_accounts_all_witness :
    (1 : Nat) + 0 =
      [(⟨["a.txt"], .ok [104]⟩ : SrcFile)].length -
        (if readmeConsumed okUploadEnv.boot [⟨["a.txt"], .ok [104]⟩] none
         then 1 else 0) :=
  uploaded_plus_skipped_accounts_all okUploadEnv
    [⟨["a.txt"], .ok [104]⟩] none "proj" "main" 1 0
    (by decide) (by decide)

/-! ### C4: the final binary batch sequence -/

/-- **C4.**  When at least one `InputGitTreeElement` was staged, the final
batch first re-resolves the branch ref to the current head, fetches that
head's commit and its tree, builds the new tree with exactly the staged
elements on that current tree as base, creates a commit whose sole parent is
the current head, and finally moves the branch ref to the new commit — in
that order, with that data flow; when nothing was staged, no batch call is
issued at all.  The batch trace comes after the whole per-file loop's trace
(i.e. after all text-file commits). -/
theorem final_batch_sequence (b : BatchEnv) (branch : String)
    (elems : List InputGitTreeElement) (headSha : String) (c : GitCommit)
    (baseTree newTree newCommit : String)
    (hne : elems ≠ [])
    (h1 : b.getRef = .ok headSha)
    (h2 : b.getCommit headSha = .ok c)
    (h3 : b.getTree c.tree = .ok baseTree)
    (h4 : b.createTree elems baseTree = .ok newTree)
    (h5 : b.createCommit "Add/update binary files" newTree [c.sha] = .ok newCommit) :
    runBatch b branch elems =
      [.get_git_ref ("heads/" ++ branch), .get_git_commit headSha,
       .get_git_tree c.tree, .create_git_tree elems baseTree,
       .create_git_commit "Add/update binary files" newTree [c.sha],
       .ref_edit newCommit] ∧
    (∀ (b2 : BatchEnv) (br2 : String), runBatch b2 br2 [] = []) ∧
    (∀ (env : UploadEnv) (files files2 : List SrcFile) (rc : Option String)
       (pn br2 : String),
      (bootstrap env.boot files rc pn br2).1 = .ok files2 →
      (_upload_files env files rc pn br2).2 =
        (bootstrap env.boot files rc pn br2).2 ++
          (runLoop env.fileRemote br2 files2 ⟨0, 0, []⟩).2 ++
          runBatch env.batch br2
            (runLoop env.fileRemote br2 files2 ⟨0, 0, []⟩).1.tree_elements) := by
  refine ⟨?_, ?_, ?_⟩
  · unfold runBatch
    rw [if_neg (by simpa using hne)]
    rw [h1]
    simp only []
    rw [h2]
    simp only []
    rw [h3]
    simp only []
    rw [h4]
    simp only []
    rw [h5]
  · intro b2 br2
    rfl
  · intro env files files2 rc pn br2 hboot
    unfold _upload_files
    rw [hboot]

/-- Witness for C4 under the fully succeeding batch remote. -/
theorem final_batch_sequence_witness :
    runBatch okBatchEnv "main" [⟨["b.bin"], "100644", "blob", "blobsha"⟩] =
      [.get_git_ref "heads/main", .get_git_commit "h1",
       .get_git_tree "h1.t",
       .create_git_tree [⟨["b.bin"], "100644", "blob", "blobsha"⟩] "h1.t",
       .create_git_commit "Add/update binary files" "tree.h1.t" ["h1"],
       .ref_edit "commit.tree.h1.t"] ∧
    (∀ (b2 : BatchEnv) (br2 : String), runBatch b2 br2 [] = []) ∧
    (∀ (env : UploadEnv) (files files2 : List SrcFile) (rc : Option String)
       (pn br2 : String),
      (bootstrap env.boot files rc pn br2).1 = .ok files2 →
      (_upload_files env files rc pn br2).2 =
        (bootstrap env.boot files rc pn br2).2 ++
          (runLoop env.fileRemote br2 files2 ⟨0, 0, []⟩).2 ++
          runBatch env.batch br2
            (runLoop env.fileRemote br2 files2 ⟨0, 0, []⟩).1.tree_elements) :=
  final_batch_sequence okBatchEnv "main" [⟨["b.bin"], "100644", "blob", "blobsha"⟩]
    "h1" ⟨"h1", "h1.t"⟩ "h1.t" "tree.h1.t" "commit.tree.h1.t"
    (by decide) (by decide) (by decide) (by decide) (by decide) (by decide)

/-! ### C5: empty-repository bootstrap priority -/

/-- **C5.**  On the empty-repository signal the bootstrap creates exactly one
initial file commit, chosen by priority: caller-supplied README text is
committed as `README.md`; otherwise a snapshot file whose relative path
case-insensitively equals `README.md` is committed and removed from the
snapshot; otherwise the placeholder `# <project-name>` is committed as
`README.md`.  Afterwards the ref, commit and tree are re-resolved (the three
trailing calls).  Stated as the full result of the empty-repo handler —
value and complete call trace — in each of the three cases, under a remote
whose create and re-resolve calls succeed. -/
theorem empty_repo_bootstrap_priority (env : BootstrapEnv)
    (files : List SrcFile) (rc : Option String) (pn branch : String)
    (tr : List Call) (sha2 : String) (c2 : GitCommit) (t2 : String)
    (hcro : env.createReadmeOverride = .ok ())
    (hcrf : env.createReadmeFromFile = .ok ())
    (hcrp : env.createReadmePlaceholder = .ok ())
    (hrr : env.refetchRef = .ok sha2)
    (hgc : env.getCommitRefetch sha2 = .ok c2)
    (hgt : env.getTreeRefetch c2.tree = .ok t2) :
    (truthy rc = true →
      emptyRepoBoot env files rc pn branch tr =
        (.ok files,
         (tr ++ [.create_file ["README.md"] "Initial commit: README.md"
            (strBytes (rc.getD "")) branch]) ++
           [.get_git_ref ("heads/" ++ branch), .get_git_commit sha2,
            .get_git_tree c2.tree])) ∧
    (truthy rc = false →
      (∀ t content, files.find? isReadmeFile = some t →
        t.readResult = .ok content → utf8Valid content = true →
        emptyRepoBoot env files rc pn branch tr =
          (.ok (files.filter (fun x => !(x == t))),
           (tr ++ [.create_file t.relPath
              ("Initial commit: " ++ pathStr t.relPath) content branch]) ++
             [.get_git_ref ("heads/" ++ branch), .get_git_commit sha2,
              .get_git_tree c2.tree])) ∧
      (files.find? isReadmeFile = none →
        emptyRepoBoot env files rc pn branch tr =
          (.ok files,
           (tr ++ [.create_file ["README.md"] "Initial commit: README.md"
              (strBytes ("# " ++ pn)) branch]) ++
             [.get_git_ref ("heads/" ++ branch), .get_git_commit sha2,
              .get_git_tree c2.tree]))) := by
  refine ⟨?_, fun htr => ⟨?_, ?_⟩⟩
  · intro htr
    unfold emptyRepoBoot
    rw [if_pos htr, hcro]
    unfold refetchAfterInit
    rw [hrr]
    simp only []
    rw [hgc]
    simp only []
    rw [hgt]
  · intro t content hfind hread hval
    unfold emptyRepoBoot
    rw [if_neg (by simp [htr]), hfind]
    simp only []
    rw [hread]
    simp only []
    rw [if_pos hval, hcrf]
    unfold refetchAfterInit
    rw [hrr]
    simp only []
    rw [hgc]
    simp only []
    rw [hgt]
  · intro hfind
    unfold emptyRepoBoot
    rw [if_neg (by simp [htr]), hfind]
    simp only []
    rw [hcrp]
    unfold refetchAfterInit
    rw [hrr]
    simp only []
    rw [hgc]
    simp only []
    rw [hgt]

/-- Witness for C5 under the fully succeeding bootstrap remote. -/
theorem empty_repo_bootstrap_priority_witness :
    ((truthy (some "hello") = true →
      emptyRepoBoot okBootEnv [] (some "hello") "proj" "main" [] =
        (.ok [],
         (([] : List Call) ++ [.create_file ["README.md"]
            "Initial commit: README.md"
            (strBytes ((some "hello").getD "")) "main"]) ++
           [.get_git_ref ("heads/" ++ "main"), .get_git_commit "c1",
            .get_git_tree (GitCommit.mk "c1" "t1").tree])) ∧
    (truthy (some "hello") = false →
      (∀ t content, ([] : List SrcFile).find? isReadmeFile = some t →
        t.readResult = .ok content → utf8Valid content = true →
        emptyRepoBoot okBootEnv [] (some "hello") "proj" "main" [] =
          (.ok (([] : List SrcFile).filter (fun x => !(x == t))),
           (([] : List Call) ++ [.create_file t.relPath
              ("Initial commit: " ++ pathStr t.relPath) content "main"]) ++
             [.get_git_ref ("heads/" ++ "main"), .get_git_commit "c1",
              .get_git_tree (GitCommit.mk "c1" "t1").tree])) ∧
      (([] : List SrcFile).find? isReadmeFile = none →
        emptyRepoBoot okBootEnv [] (some "hello") "proj" "main" [] =
          (.ok ([] : List SrcFile),
           (([] : List Call) ++ [.create_file ["README.md"]
              "Initial commit: README.md"
              (strBytes ("# " ++ "proj")) "main"]) ++
             [.get_git_ref ("heads/" ++ "main"), .get_git_commit "c1",
              .get_git_tree (GitCommit.mk "c1" "t1").tree])))) :=
  empty_repo_bootstrap_priority okBootEnv [] (some "hello") "proj" "main" []
    "c1" ⟨"c1", "t1"⟩ "t1" rfl rfl rfl rfl (by decide) (by decide)

/-! ### C6: corrected — `heads/main` is tried first, the default branch is
the fallback

The claim says the branch is created from the default branch's head, with a
hardcoded name only as fallback.  Lines 118-121 do the opposite: they try
`heads/main` first and consult `repo.default_branch` only when that lookup
raises. -/

/-- Counterexample to C6 as stated: in `c6Env` the default branch is
`develop` and its head (`devsha`) is determinable, yet the run creates the
target branch at `mainsha` (the head of the hardcoded branch `main`), never
issues a lookup of `heads/develop`, and never creates a ref at `devsha`. -/
theorem branch_fallback_counterexample :
    (bootstrap c6Env [] none "proj" "feature").2 =
      [.get_git_ref "heads/feature", .get_git_ref "heads/main",
       .create_git_ref "refs/heads/feature" "mainsha",
       .get_git_commit "mainsha", .get_git_tree "mt"] ∧
    Call.get_git_ref "heads/develop" ∉
      (bootstrap c6Env [] none "proj" "feature").2 ∧
    Call.create_git_ref "refs/heads/feature" "devsha" ∉
      (bootstrap c6Env [] none "proj" "feature").2 := by
  refine ⟨by decide, by decide, by decide⟩

theorem missingBranchAfterMaster_trace (env : BootstrapEnv)
    (files : List SrcFile) (branch masterSha : String) (tr : List Call) :
    ∃ rest, (missingBranchAfterMaster env files branch masterSha tr).2 =
      tr ++ [.create_git_ref ("refs/heads/" ++ branch) masterSha] ++ rest := by
  unfold missingBranchAfterMaster
  cases h1 : env.createGitRef masterSha with
  | err e => exact ⟨[], by simp⟩
  | ok u =>
    cases h2 : env.getCommitNewBranch masterSha with
    | err e => exact ⟨[.get_git_commit masterSha], by simp⟩
    | ok c =>
      cases h3 : env.getTreeNewBranch c.tree with
      | err e =>
        exact ⟨[.get_git_commit masterSha, .get_git_tree c.tree], by simp [h3]⟩
      | ok t =>
        exact ⟨[.get_git_commit masterSha, .get_git_tree c.tree], by simp [h3]⟩

/-- **C6 (amended).**  For an existing repository whose target-branch lookup
raises a non-empty-repo exception, the run creates the target branch ref
before any file uploads occur (the bootstrap trace is a prefix of the whole
run's trace), pointing at the head of the hardcoded branch `main` whenever
`heads/main` resolves; only when the `heads/main` lookup fails does it fall
back to the head of `repo.default_branch`. -/
theorem missing_branch_created_from_main_then_default (env : BootstrapEnv)
    (files : List SrcFile) (rc : Option String) (pn branch : String) (e : Exn)
    (hinit : env.initRef = .err e)
    (hemp : e.isEmptyRepo = false) :
    (∀ mainSha, env.getRefMain = .ok mainSha →
      ∃ rest, (bootstrap env files rc pn branch).2 =
        [.get_git_ref ("heads/" ++ branch), .get_git_ref "heads/main",
         .create_git_ref ("refs/heads/" ++ branch) mainSha] ++ rest) ∧
    (∀ e2 devSha, env.getRefMain = .err e2 →
      env.getRefDefault ("heads/" ++ env.default_branch) = .ok devSha →
      ∃ rest, (bootstrap env files rc pn branch).2 =
        [.get_git_ref ("heads/" ++ branch), .get_git_ref "heads/main",
         .get_git_ref ("heads/" ++ env.default_branch),
         .create_git_ref ("refs/heads/" ++ branch) devSha] ++ rest) ∧
    (∀ (uenv : UploadEnv) (files2 : List SrcFile),
      (bootstrap uenv.boot files rc pn branch).1 = .ok files2 →
      ∃ rest, (_upload_files uenv files rc pn branch).2 =
        (bootstrap uenv.boot files rc pn branch).2 ++ rest) := by
  refine ⟨?_, ?_, ?_⟩
  · intro mainSha hmain
    unfold bootstrap
    rw [hinit]
    simp only []
    unfold bootHandler
    rw [if_neg (by simp [hemp])]
    unfold missingBranchBoot
    rw [hmain]
    simp only []
    obtain ⟨rest, hres⟩ := missingBranchAfterMaster_trace env files branch mainSha
      ([.get_git_ref ("heads/" ++ branch)] ++ [.get_git_ref "heads/main"])
    refine ⟨rest, ?_⟩
    rw [hres]
    simp
  · intro e2 devSha hmain hdev
    unfold bootstrap
    rw [hinit]
    simp only []
    unfold bootHandler
    rw [if_neg (by simp [hemp])]
    unfold missingBranchBoot
    rw [hmain]
    simp only []
    rw [hdev]
    simp only []
    obtain ⟨rest, hres⟩ := missingBranchAfterMaster_trace env files branch devSha
      ([.get_git_ref ("heads/" ++ branch)] ++
        [.get_git_ref "heads/main", .get_git_ref ("heads/" ++ env.default_branch)])
    refine ⟨rest, ?_⟩
    rw [hres]
    simp
  · intro uenv files2 hboot
    refine ⟨(runLoop uenv.fileRemote branch files2 ⟨0, 0, []⟩).2 ++
      runBatch uenv.batch branch
        (runLoop uenv.fileRemote branch files2 ⟨0, 0, []⟩).1.tree_elements, ?_⟩
    unfold _upload_files
    rw [hboot]
    simp

/-- Witness for the amended C6 at `c6Env` (whose `heads/main` resolves to
`mainsha`). -/
theorem missing_branch_created_from_main_then_default_witness :
    ∃ rest, (bootstrap c6Env [] none "proj" "feature").2 =
      [.get_git_ref ("heads/" ++ "feature"), .get_git_ref "heads/main",
       .create_git_ref ("refs/heads/" ++ "feature") "mainsha"] ++ rest :=
  (missing_branch_created_from_main_then_default c6Env [] none "proj" "feature"
    plainExn rfl rfl).1 "mainsha" rfl

/-! ### C10: the success dict after a completed bootstrap -/

theorem runLoop_all_skipped (fenv : SrcFile → FileRemote) (branch : String) :
    ∀ (files : List SrcFile) (st : LoopState),
      (∀ f ∈ files, (processFile (fenv f) branch f).1 = false) →
      (runLoop fenv branch files st).1.files_uploaded = st.files_uploaded ∧
      (runLoop fenv branch files st).1.files_skipped =
        st.files_skipped + files.length := by
  intro files
  induction files with
  | nil => intro st _; simp [runLoop]
  | cons f rest ih =>
    intro st hall
    have hf := hall f (by simp)
    have hstep : stepState st (processFile (fenv f) branch f) =
        { st with files_skipped := st.files_skipped + 1 } := by
      unfold stepState
      rw [if_neg (by simp [hf])]
    have hrest := ih (stepState st (processFile (fenv f) branch f))
      (fun g hg => hall g (by simp [hg]))
    constructor
    · show (runLoop fenv branch rest
          (stepState st (processFile (fenv f) branch f))).1.files_uploaded = _
      rw [hrest.1, hstep]
    · show (runLoop fenv branch rest
          (stepState st (processFile (fenv f) branch f))).1.files_skipped = _
      rw [hrest.2, hstep]
      simp
      omega

/-- **C10.**  Once the repository was obtained (`_get_or_create_repo`
returned one) and the bootstrap block completed, `deploy_project` returns a
dict with `success = True`, the repository URL and both counters — for every
behaviour of the per-file and batch remotes, so no per-file or final-batch
failure can yield a failure dict or an escaping exception; and when every
eligible file fails, the counters are exactly `uploaded = 0`,
`skipped = eligible count`. -/
theorem deploy_success_after_bootstrap (repo : Repo) (env : UploadEnv)
    (files files2 : List SrcFile) (rc : Option String)
    (repo_name pn branch : String) (privF : Bool)
    (hboot : (bootstrap env.boot files rc pn branch).1 = .ok files2) :
    (deploy_project (some repo) env files rc repo_name pn branch privF).1 =
      .ok (.success repo.html_url repo_name branch privF
        (runLoop env.fileRemote branch files2 ⟨0, 0, []⟩).1.files_uploaded
        (runLoop env.fileRemote branch files2 ⟨0, 0, []⟩).1.files_skipped) ∧
    ((∀ f ∈ files2, (processFile (env.fileRemote f) branch f).1 = false) →
      (runLoop env.fileRemote branch files2 ⟨0, 0, []⟩).1.files_uploaded = 0 ∧
      (runLoop env.fileRemote branch files2 ⟨0, 0, []⟩).1.files_skipped =
        files2.length) := by
  constructor
  · have hu : (_upload_files env files rc pn branch).1 =
        .ok ((runLoop env.fileRemote branch files2 ⟨0, 0, []⟩).1.files_uploaded,
             (runLoop env.fileRemote branch files2 ⟨0, 0, []⟩).1.files_skipped) := by
      unfold _upload_files
      rw [hboot]
    unfold deploy_project
    rw [hu]
  · intro hall
    have h := runLoop_all_skipped env.fileRemote branch files2 ⟨0, 0, []⟩ hall
    simpa using h

/-- Witness for C10: one file, every per-file call failing; the deploy still
reports success with `uploaded = 0`, `skipped = 1`. -/
theorem deploy_success_after_bootstrap_witness :
    ((deploy_project (some ⟨"https://example.invalid/r"⟩)
        ⟨okBootEnv, fun _ => failFileRemote, okBatchEnv⟩
        [⟨["a.txt"], .ok [104]⟩] none "r" "proj" "main" false).1 =
      .ok (.success "https://example.invalid/r" "r" "main" false
        (runLoop (fun _ => failFileRemote) "main" [⟨["a.txt"], .ok [104]⟩]
          ⟨0, 0, []⟩).1.files_uploaded
        (runLoop (fun _ => failFileRemote) "main" [⟨["a.txt"], .ok [104]⟩]
          ⟨0, 0, []⟩).1.files_skipped) ∧
    ((∀ f ∈ [(⟨["a.txt"], .ok [104]⟩ : SrcFile)],
        (processFile ((fun (_ : SrcFile) => failFileRemote) f) "main" f).1 = false) →
      (runLoop (fun _ => failFileRemote) "main" [⟨["a.txt"], .ok [104]⟩]
        ⟨0, 0, []⟩).1.files_uploaded = 0 ∧
      (runLoop (fun _ => failFileRemote) "main" [⟨["a.txt"], .ok [104]⟩]
        ⟨0, 0, []⟩).1.files_skipped =
        [(⟨["a.txt"], .ok [104]⟩ : SrcFile)].length)) :=
  deploy_success_after_bootstrap ⟨"https://example.invalid/r"⟩
    ⟨okBootEnv, fun _ => failFileRemote, okBatchEnv⟩
    [⟨["a.txt"], .ok [104]⟩] [⟨["a.txt"], .ok [104]⟩] none "r" "proj" "main"
    false (by decide)

end MCPNeogit
